import Mathlib

/-!
# Mesos Python bridge: `src/python/native/module.hpp`

A shallow embedding of the three definitions of the header

* `InterpreterLock`       (RAII guard around `PyGILState_Ensure` / `PyGILState_Release`),
* `readPythonProtobuf`    (Python protobuf object  →  C++ message),
* `createPythonProtobuf`  (C++ message  →  Python protobuf object),

followed by the properties proved about them.

The header only *calls* the CPython C API and the protobuf runtime; neither is part of
the repository.  Both are therefore taken as parameters (`PyApi`, `NativeApi`, `GilApi`),
and the functions of the header are written as state transformers over a `World` that
carries the Python heap, the pending-exception indicator and a log of everything the
function did (lines written to `std::cerr`, C-API calls, protobuf calls).
-/

namespace Mesos.Python

/-! ## Data model -/

/-- One octet. -/
abbrev Byte := Fin 256

/-- Raw byte sequence: the serialized wire form of a message. -/
abbrev Bytes := List Byte

/-- A non-NULL `PyObject*`.  A possibly-NULL pointer is an `Option PyRef`. -/
abbrev PyRef := Nat

/-- A raised Python exception: its type and its message. -/
structure PyErr where
  type : String
  message : String
deriving DecidableEq, Repr

/-- What the functions of the header do that is observable from outside. -/
inductive Event where
  /-- A line written with `std::cerr << ... << std::endl`. -/
  | cerr (line : String)
  /-- A `PyObject_CallMethod(obj, name, ...)`: receiver, method name, the byte-string
  argument (`none` for a NULL format) and the returned pointer (`none` for NULL). -/
  | callMethod (obj : PyRef) (name : String) (arg : Option Bytes) (result : Option PyRef)
  /-- A `PyErr_Print()`, with the exception it printed and cleared. -/
  | errPrint (e : Option PyErr)
  /-- A `PyErr_Format(...)`, with the exception it set. -/
  | errFormat (e : PyErr)
  /-- A `Py_DECREF(r)`. -/
  | decref (r : PyRef)
  /-- A call of the native parser `T::ParseFromZeroCopyStream` on the given bytes. -/
  | nativeParse (input : Bytes)
  /-- A call of the native serializer `T::SerializeToString`. -/
  | nativeSerialize
deriving DecidableEq, Repr

/-- The state the functions run in: the Python heap (abstract), the interpreter's
error indicator, and the log of events so far (oldest first). -/
structure World (H : Type) where
  heap : H
  pending : Option PyErr
  trace : List Event

/-- The part of the CPython C API the header uses, as functions of the Python heap.
`Py_None` is the address of the `None` singleton. -/
structure PyApi (H : Type) where
  Py_None : PyRef
  /-- Result of `PyModule_GetDict(mesos_pb2)`: the namespace dictionary, or NULL. -/
  moduleGetDict : H → Option PyRef
  /-- Result of `PyDict_GetItemString(dict, key)`: a borrowed reference, or NULL
  (without an exception) when the key is absent. -/
  dictGetItemString : H → PyRef → String → Option PyRef
  /-- Result of `PyType_Check(o)`. -/
  typeCheck : H → PyRef → Bool
  /-- Running `obj.name(arg)`: a new reference or a raised exception, and the heap
  afterwards. -/
  callMethod : H → PyRef → String → Option Bytes → Except PyErr PyRef × H
  /-- The content of a string object, or the `TypeError` raised for a non-string. -/
  stringAsStringAndSize : H → PyRef → Except PyErr Bytes
  /-- Heap after dropping one reference. -/
  decref : H → PyRef → H

/-- The part of the protobuf runtime the header uses for a message type `T`. -/
structure NativeApi (T : Type) where
  /-- Result of `t.SerializeToString(&str)`: the content of `str` when it returns true. -/
  serializeToString : T → Option Bytes
  /-- Result of `t->ParseFromZeroCopyStream(&stream)`: the return value and the state
  of `*t` afterwards.  The parser works in place on the destination. -/
  parseFromZeroCopyStream : T → Bytes → Bool × T

/-! ## C-level helpers -/

/-- Append an event to the log. -/
def World.emit {H : Type} (w : World H) (e : Event) : World H :=
  { w with trace := w.trace ++ [e] }

/-- Execution of `std::cerr << line << std::endl`. -/
def cerr {H : Type} (line : String) (w : World H) : World H :=
  w.emit (Event.cerr line)

/-- Execution of `PyErr_Format(PyExc_Exception, ...)` with the formatted message:
sets the error indicator, replacing whatever was there. -/
def PyErr_Format {H : Type} (msg : String) (w : World H) : World H :=
  let e : PyErr := { type := "Exception", message := msg }
  { w with pending := some e, trace := w.trace ++ [Event.errFormat e] }

/-- Execution of `PyErr_Print()`: prints the pending exception and clears the indicator.
(CPython ends the process instead when the exception is `SystemExit`; that case is
outside this model.) -/
def PyErr_Print {H : Type} (w : World H) : World H :=
  { w with pending := none, trace := w.trace ++ [Event.errPrint w.pending] }

/-- Execution of `Py_DECREF(r)`. -/
def Py_DECREF {H : Type} (py : PyApi H) (r : PyRef) (w : World H) : World H :=
  { w with heap := py.decref w.heap r, trace := w.trace ++ [Event.decref r] }

/-- Execution of `PyObject_CallMethod(obj, name, ...)`: on success a new reference is
returned and the error indicator is untouched, on failure NULL is returned with the
raised exception pending. -/
def PyObject_CallMethod {H : Type} (py : PyApi H) (obj : PyRef) (name : String)
    (arg : Option Bytes) (w : World H) : Option PyRef × World H :=
  match py.callMethod w.heap obj name arg with
  | (Except.ok r, h) =>
      (some r, { w with heap := h,
                        trace := w.trace ++ [Event.callMethod obj name arg (some r)] })
  | (Except.error e, h) =>
      (none, { heap := h, pending := some e,
               trace := w.trace ++ [Event.callMethod obj name arg none] })

/-- The buffer behind `std::string::data()` / a Python string's `ob_sval`: the bytes
followed by a terminating NUL. -/
def cBuffer (b : Bytes) : Bytes := b ++ [0]

/-- Execution of `PyString_AsStringAndSize(res, &chars, &len)`: on success `chars`
points at the string's buffer and `len` is its length; on failure (-1) a `TypeError`
is pending. -/
def PyString_AsStringAndSize {H : Type} (py : PyApi H) (res : PyRef) (w : World H) :
    Option (Bytes × Nat) × World H :=
  match py.stringAsStringAndSize w.heap res with
  | Except.ok b => (some (cBuffer b, b.length), w)
  | Except.error e => (none, { w with pending := some e })

/-- The bytes `google::protobuf::io::ArrayInputStream(data, size)` presents: the first
`size` bytes at `data`.  Sizes are natural numbers here; protobuf wire forms stay below
the range of `int`. -/
def ArrayInputStream (data : Bytes) (size : Nat) : Bytes := data.take size

/-- The byte string `Py_BuildValue("s#", data, size)` builds: the first `size` bytes at
`data` (embedded NULs included). -/
def buildValue_s_hash (data : Bytes) (size : Nat) : Bytes := data.take size

/-! ## `readPythonProtobuf` -/

/-- Embedding of `template <typename T> bool readPythonProtobuf(PyObject* obj, T* t)`.
Returns the boolean result, the state of `*t` after the call, and the world after
the call. -/
def readPythonProtobuf {H T : Type} (py : PyApi H) (nat : NativeApi T)
    (obj : PyRef) (t : T) (w : World H) : Bool × T × World H :=
  if obj = py.Py_None then
    (false, t, cerr "None object given where protobuf expected" w)
  else
    match PyObject_CallMethod py obj "SerializeToString" none w with
    | (none, w1) =>
        let w2 := cerr ("Failed to call Python object's SerializeToString " ++
                        "(perhaps it is not a protobuf?)") w1
        (false, t, PyErr_Print w2)
    | (some res, w1) =>
        match PyString_AsStringAndSize py res w1 with
        | (none, w2) =>
            let w3 := cerr "SerializeToString did not return a string" w2
            (false, t, Py_DECREF py res (PyErr_Print w3))
        | (some (chars, len), w2) =>
            let stream := ArrayInputStream chars len
            let w3 := w2.emit (Event.nativeParse stream)
            let r := nat.parseFromZeroCopyStream t stream
            let w4 := if r.1 = false then
                        cerr "Could not deserialize protobuf as expected type" w3
                      else w3
            (r.1, r.2, Py_DECREF py res w4)

/-! ## `createPythonProtobuf` -/

/-- Embedding of
`template <typename T> PyObject* createPythonProtobuf(const T& t, const char* typeName)`.
Returns the pointer (`none` for NULL) and the world after the call. -/
def createPythonProtobuf {H T : Type} (py : PyApi H) (nat : NativeApi T)
    (t : T) (typeName : String) (w : World H) : Option PyRef × World H :=
  match py.moduleGetDict w.heap with
  | none => (none, PyErr_Format "PyModule_GetDict failed" w)
  | some dict =>
      match py.dictGetItemString w.heap dict typeName with
      | none => (none, PyErr_Format ("Could not resolve mesos_pb2." ++ typeName) w)
      | some type =>
          if py.typeCheck w.heap type = false then
            (none, PyErr_Format ("mesos_pb2." ++ typeName ++ " is not a type") w)
          else
            let w1 := w.emit Event.nativeSerialize
            match nat.serializeToString t with
            | none =>
                (none, PyErr_Format ("C++ " ++ typeName ++ " SerializeToString failed") w1)
            | some str =>
                PyObject_CallMethod py type "FromString"
                  (some (buildValue_s_hash (cBuffer str) str.length)) w1

/-! ## Observations on a run -/

/-- The events a call added to the log: those of `w'` after the ones already in `w`. -/
def eventsSince {H : Type} (w w' : World H) : List Event :=
  w'.trace.drop w.trace.length

/-- Change of the number of references owned by the native code that one event causes
on object `r`: a method call that returns `r` hands over one new reference, a
`Py_DECREF(r)` gives one back. -/
def refGain (r : PyRef) : Event → Int
  | Event.callMethod _ _ _ (some r') => if r' = r then 1 else 0
  | Event.decref r' => if r' = r then -1 else 0
  | _ => 0

/-- Net change of the references to `r` owned by the native code over a list of events. -/
def refDelta (r : PyRef) (evs : List Event) : Int :=
  (evs.map (refGain r)).sum

/-- The message `msg` contains `name` as a contiguous substring. -/
def containsName (msg name : String) : Prop :=
  ∃ before after : List Char, msg.data = before ++ name.data ++ after

/-! ## `InterpreterLock` -/

/-- The two GIL-state functions of the CPython C API, as functions of the lock state
`G` of the calling thread; `Tok` is `PyGILState_STATE`. -/
structure GilApi (G Tok : Type) where
  PyGILState_Ensure : G → Tok × G
  PyGILState_Release : Tok → G → G

/-- Embedding of `class InterpreterLock`: its only member is `PyGILState_STATE state`. -/
structure InterpreterLock (Tok : Type) where
  state : Tok

/-- Embedding of the constructor: `state = PyGILState_Ensure();`. -/
def InterpreterLock.ctor {G Tok : Type} (api : GilApi G Tok) (g : G) :
    InterpreterLock Tok × G :=
  let r := api.PyGILState_Ensure g
  ({ state := r.1 }, r.2)

/-- Embedding of the destructor: `PyGILState_Release(state);`. -/
def InterpreterLock.dtor {G Tok : Type} (api : GilApi G Tok) (self : InterpreterLock Tok)
    (g : G) : G :=
  api.PyGILState_Release self.state g

/-- What a thread does with `InterpreterLock` objects, as far as the lock is concerned:
`scope body rest` is a block `{ InterpreterLock lock; body }` followed by `rest`;
`leave` leaves the enclosing function early (a `return` or a thrown exception), which
unwinds every open block. -/
inductive Scopes where
  | done
  | leave
  | scope (body rest : Scopes)
deriving DecidableEq, Repr

/-- The calls made on the GIL API: an `acquire` records the lock state before the call
and the token obtained, a `release` the token passed and the lock state after. -/
inductive GilEvent (G Tok : Type) where
  | acquire (before : G) (state : Tok)
  | release (state : Tok) (after : G)
deriving DecidableEq, Repr

/-- Run a thread's blocks from lock state `g`.  The constructor runs on block entry and
the destructor on block exit, whether the body ran to its end or left early.  Returns
the final lock state, the GIL calls made, and whether the function was left early. -/
def runScopes {G Tok : Type} (api : GilApi G Tok) :
    Scopes → G → G × List (GilEvent G Tok) × Bool
  | Scopes.done, g => (g, [], false)
  | Scopes.leave, g => (g, [], true)
  | Scopes.scope body rest, g =>
      let c := InterpreterLock.ctor api g
      let b := runScopes api body c.2
      let g3 := InterpreterLock.dtor api c.1 b.1
      let evs := GilEvent.acquire g c.1.state :: (b.2.1 ++ [GilEvent.release c.1.state g3])
      if b.2.2 then (g3, evs, true)
      else
        let r := runScopes api rest g3
        (r.1, evs ++ r.2.1, r.2.2)

/-- Checks a list of GIL calls against a stack of open acquires: every release closes
the most recent open acquire, passes the token that acquire obtained, and leaves the
lock state that acquire found; at the end no acquire is open. -/
def wellBracketed {G Tok : Type} [DecidableEq G] [DecidableEq Tok] :
    List (GilEvent G Tok) → List (G × Tok) → Bool
  | [], stack => stack.isEmpty
  | GilEvent.acquire g s :: es, stack => wellBracketed es ((g, s) :: stack)
  | GilEvent.release _ _ :: _, [] => false
  | GilEvent.release s g :: es, (g0, s0) :: stack =>
      decide (s = s0) && decide (g = g0) && wellBracketed es stack

/-- Checks that every release made while an outer acquire is still open (`depth` counts
the open acquires) leaves the lock held. -/
def outerHoldKept {G Tok : Type} (held : G → Bool) :
    List (GilEvent G Tok) → Nat → Bool
  | [], _ => true
  | GilEvent.acquire _ _ :: es, depth => outerHoldKept held es (depth + 1)
  | GilEvent.release _ g :: es, depth =>
      (decide (depth ≤ 1) || held g) && outerHoldKept held es (depth - 1)

/-! ### Reference model of the GIL-state API

The behaviour of `PyGILState_Ensure` / `PyGILState_Release` for one thread, after
CPython's `pystate.c`. -/

/-- The values of `PyGILState_STATE`. -/
inductive PyGILState_STATE where
  | PyGILState_LOCKED
  | PyGILState_UNLOCKED
deriving DecidableEq, Repr

/-- Lock state of one thread: `counter` is the `gilstate_counter` of the thread's
thread state (`none` when the thread has no thread state), `current` says whether the
thread holds the GIL. -/
structure GilState where
  counter : Option Nat
  current : Bool
deriving DecidableEq, Repr

/-- The reference model: `Ensure` creates a thread state when there is none, takes the GIL
when it is not held, counts the call and reports whether the GIL was held before;
`Release` uncounts, deletes the thread state (releasing the GIL) when the count
reaches zero, and otherwise releases the GIL when the token says it was not held. -/
def refGil : GilApi GilState PyGILState_STATE where
  PyGILState_Ensure := fun g =>
    match g.counter with
    | none => (PyGILState_STATE.PyGILState_UNLOCKED, { counter := some 1, current := true })
    | some c =>
        (if g.current then PyGILState_STATE.PyGILState_LOCKED
         else PyGILState_STATE.PyGILState_UNLOCKED,
         { counter := some (c + 1), current := true })
  PyGILState_Release := fun tok g =>
    match g.counter with
    | none => g
    | some c =>
        if c - 1 = 0 then { counter := none, current := false }
        else if tok = PyGILState_STATE.PyGILState_UNLOCKED then
          { counter := some (c - 1), current := false }
        else { counter := some (c - 1), current := g.current }

/-- Well-formed lock states of the reference model: a thread without a thread state does
not hold the GIL, and an existing thread state has a positive counter. -/
def refGilInv (g : GilState) : Prop :=
  match g.counter with
  | none => g.current = false
  | some c => 0 < c

instance refGilInv.decidable (g : GilState) : Decidable (refGilInv g) :=
  match g with
  | { counter := none, current := cur } => inferInstanceAs (Decidable (cur = false))
  | { counter := some c, current := _ } => inferInstanceAs (Decidable (0 < c))

/-! ## A small concrete instance

A two-field message type with a two-byte wire form, and a Python heap holding the
`mesos_pb2` namespace with one generated class.  Used to evaluate the embedding on
concrete inputs. -/

/-- Example message type: two one-byte fields. -/
structure ToyMsg where
  a : Byte
  b : Byte
deriving DecidableEq, Repr

/-- Example native runtime: the wire form is the two fields in order.  The parser, like
protobuf's `Parse*` methods, clears the destination first and then fills the fields
as it reads them; it rejects input that is not exactly two bytes long. -/
def toyNative : NativeApi ToyMsg where
  serializeToString := fun m => some [m.a, m.b]
  parseFromZeroCopyStream := fun _ input =>
    match input with
    | [] => (false, { a := 0, b := 0 })
    | [x] => (false, { a := x, b := 0 })
    | [x, y] => (true, { a := x, b := y })
    | x :: y :: _ => (false, { a := x, b := y })

/-- Example native runtime whose serializer fails. -/
def toyNativeNoSerialize : NativeApi ToyMsg where
  serializeToString := fun _ => none
  parseFromZeroCopyStream := toyNative.parseFromZeroCopyStream

/-- Example Python objects. -/
inductive ToyObj where
  /-- The `None` singleton. -/
  | none
  /-- The namespace dictionary of `mesos_pb2`. -/
  | moduleDict
  /-- The generated class for `ToyMsg`. -/
  | msgClass
  /-- An instance of the generated class. -/
  | msg (m : ToyMsg)
  /-- A byte string. -/
  | str (b : Bytes)
  /-- An object with a `SerializeToString` method that returns the given bytes. -/
  | blob (b : Bytes)
  /-- An object with a `SerializeToString` method that returns a non-string. -/
  | oddball
deriving DecidableEq, Repr

/-- Example Python runtime over a heap of `ToyObj`, addressed by position.  The
namespace maps `"TaskInfo"` to the generated class and `"version"` to a string. -/
def toyPy : PyApi (List ToyObj) where
  Py_None := 0
  moduleGetDict := fun _ => some 1
  dictGetItemString := fun _ d key =>
    if d = 1 then
      if key = "TaskInfo" then some 2
      else if key = "version" then some 3
      else none
    else none
  typeCheck := fun h r => decide (h[r]? = some ToyObj.msgClass)
  callMethod := fun h obj name arg =>
    match h[obj]?, arg with
    | some ToyObj.msgClass, some [x, y] =>
        if name = "FromString" then
          (Except.ok h.length, h ++ [ToyObj.msg { a := x, b := y }])
        else (Except.error { type := "AttributeError", message := name }, h)
    | some ToyObj.msgClass, some _ =>
        if name = "FromString" then
          (Except.error { type := "DecodeError", message := "Truncated message" }, h)
        else (Except.error { type := "AttributeError", message := name }, h)
    | some (ToyObj.msg m), Option.none =>
        if name = "SerializeToString" then
          (Except.ok h.length, h ++ [ToyObj.str [m.a, m.b]])
        else (Except.error { type := "AttributeError", message := name }, h)
    | some (ToyObj.blob b), Option.none =>
        if name = "SerializeToString" then
          (Except.ok h.length, h ++ [ToyObj.str b])
        else (Except.error { type := "AttributeError", message := name }, h)
    | some ToyObj.oddball, Option.none =>
        if name = "SerializeToString" then
          (Except.ok h.length, h ++ [ToyObj.none])
        else (Except.error { type := "AttributeError", message := name }, h)
    | _, _ => (Except.error { type := "AttributeError", message := name }, h)
  stringAsStringAndSize := fun h r =>
    match h[r]? with
    | some (ToyObj.str b) => Except.ok b
    | _ => Except.error { type := "TypeError", message := "expected string" }
  decref := fun h _ => h

/-- Example Python runtime in which `PyModule_GetDict(mesos_pb2)` returns NULL. -/
def toyPyNoModule : PyApi (List ToyObj) :=
  { toyPy with moduleGetDict := fun _ => Option.none }

/-- Example heap: `None`, the namespace, the generated class, a string, an object
serializing to a single byte, and an object serializing to a non-string. -/
def toyHeap : List ToyObj :=
  [ToyObj.none, ToyObj.moduleDict, ToyObj.msgClass, ToyObj.str [1, 2],
   ToyObj.blob [5], ToyObj.oddball]

/-- Example world: the example heap, no exception pending, empty log. -/
def toyWorld : World (List ToyObj) :=
  { heap := toyHeap, pending := Option.none, trace := [] }

/-- In the example runtime, the object at address `o` represents the message `m` when
`o` is not the address of `None` and the heap holds an instance with content `m` there. -/
def toyRepresents (h : List ToyObj) (o : PyRef) (m : ToyMsg) : Prop :=
  o ≠ toyPy.Py_None ∧ h[o]? = some (ToyObj.msg m)

/-! ## The four ways through `readPythonProtobuf` -/

theorem take_cBuffer (b : Bytes) : List.take b.length (cBuffer b) = b := by
  simp [cBuffer]

theorem read_none {H T : Type} (py : PyApi H) (nat : NativeApi T) (t : T) (w : World H) :
    readPythonProtobuf py nat py.Py_None t w =
      (false, t, { w with trace := w.trace ++
        [Event.cerr "None object given where protobuf expected"] }) := by
  simp [readPythonProtobuf, cerr, World.emit]

theorem read_callFailed {H T : Type} (py : PyApi H) (nat : NativeApi T) (obj : PyRef)
    (t : T) (w : World H) (e : PyErr) (h : H) (hobj : obj ≠ py.Py_None)
    (hcall : py.callMethod w.heap obj "SerializeToString" none = (Except.error e, h)) :
    readPythonProtobuf py nat obj t w =
      (false, t, { heap := h, pending := none, trace := w.trace ++
        [Event.callMethod obj "SerializeToString" none none,
         Event.cerr ("Failed to call Python object's SerializeToString " ++
                     "(perhaps it is not a protobuf?)"),
         Event.errPrint (some e)] }) := by
  simp [readPythonProtobuf, hobj, PyObject_CallMethod, hcall, cerr, World.emit, PyErr_Print]

theorem read_notString {H T : Type} (py : PyApi H) (nat : NativeApi T) (obj : PyRef)
    (t : T) (w : World H) (res : PyRef) (e : PyErr) (h : H) (hobj : obj ≠ py.Py_None)
    (hcall : py.callMethod w.heap obj "SerializeToString" none = (Except.ok res, h))
    (hstr : py.stringAsStringAndSize h res = Except.error e) :
    readPythonProtobuf py nat obj t w =
      (false, t, { heap := py.decref h res, pending := none, trace := w.trace ++
        [Event.callMethod obj "SerializeToString" none (some res),
         Event.cerr "SerializeToString did not return a string",
         Event.errPrint (some e),
         Event.decref res] }) := by
  simp [readPythonProtobuf, hobj, PyObject_CallMethod, hcall, PyString_AsStringAndSize, hstr,
    cerr, World.emit, PyErr_Print, Py_DECREF]

theorem read_parsed {H T : Type} (py : PyApi H) (nat : NativeApi T) (obj : PyRef)
    (t : T) (w : World H) (res : PyRef) (b : Bytes) (h : H) (hobj : obj ≠ py.Py_None)
    (hcall : py.callMethod w.heap obj "SerializeToString" none = (Except.ok res, h))
    (hstr : py.stringAsStringAndSize h res = Except.ok b) :
    readPythonProtobuf py nat obj t w =
      ((nat.parseFromZeroCopyStream t b).1, (nat.parseFromZeroCopyStream t b).2,
       { heap := py.decref h res, pending := w.pending, trace := w.trace ++
          ([Event.callMethod obj "SerializeToString" none (some res), Event.nativeParse b] ++
           (if (nat.parseFromZeroCopyStream t b).1 = false then
              [Event.cerr "Could not deserialize protobuf as expected type"] else []) ++
           [Event.decref res]) }) := by
  simp only [readPythonProtobuf, hobj, PyObject_CallMethod, hcall, PyString_AsStringAndSize, hstr,
    cerr, World.emit, Py_DECREF, ArrayInputStream, take_cBuffer, if_false]
  cases hp : (nat.parseFromZeroCopyStream t b).1 <;> simp

/-! ## Properties of `readPythonProtobuf` -/

/-- C2: called with the `None` object, `readPythonProtobuf` returns false and leaves the
destination, the heap and the error indicator as they were; the only thing it does is
write the line "None object given where protobuf expected" to `std::cerr`, so neither
`SerializeToString` nor the native parser is invoked. -/
theorem readPythonProtobuf_none_object {H T : Type} (py : PyApi H) (nat : NativeApi T)
    (t : T) (w : World H) :
    (readPythonProtobuf py nat py.Py_None t w).1 = false ∧
    (readPythonProtobuf py nat py.Py_None t w).2.1 = t ∧
    (readPythonProtobuf py nat py.Py_None t w).2.2.heap = w.heap ∧
    (readPythonProtobuf py nat py.Py_None t w).2.2.pending = w.pending ∧
    eventsSince w (readPythonProtobuf py nat py.Py_None t w).2.2 =
      [Event.cerr "None object given where protobuf expected"] ∧
    (∀ o n a r, Event.callMethod o n a r ∉
      eventsSince w (readPythonProtobuf py nat py.Py_None t w).2.2) ∧
    (∀ b, Event.nativeParse b ∉
      eventsSince w (readPythonProtobuf py nat py.Py_None t w).2.2) := by
  rw [read_none]
  simp [eventsSince]

/-- C3: for an object other than `None` whose `SerializeToString` call returns NULL,
`readPythonProtobuf` returns false and leaves the destination as it was; what it does
is the call, the diagnostic line and `PyErr_Print()`, so the native parser is never
invoked. -/
theorem readPythonProtobuf_call_failed {H T : Type} (py : PyApi H) (nat : NativeApi T)
    (obj : PyRef) (t : T) (w : World H) (e : PyErr) (h : H) (hobj : obj ≠ py.Py_None)
    (hcall : py.callMethod w.heap obj "SerializeToString" none = (Except.error e, h)) :
    (readPythonProtobuf py nat obj t w).1 = false ∧
    (readPythonProtobuf py nat obj t w).2.1 = t ∧
    (∀ b, Event.nativeParse b ∉ eventsSince w (readPythonProtobuf py nat obj t w).2.2) ∧
    eventsSince w (readPythonProtobuf py nat obj t w).2.2 =
      [Event.callMethod obj "SerializeToString" none none,
       Event.cerr ("Failed to call Python object's SerializeToString " ++
                   "(perhaps it is not a protobuf?)"),
       Event.errPrint (some e)] := by
  rw [read_callFailed py nat obj t w e h hobj hcall]
  simp [eventsSince]

/-- Evaluation on a string object, which has no
`SerializeToString` method. -/
theorem readPythonProtobuf_call_failed_witness :
    (readPythonProtobuf toyPy toyNative 3 ({ a := 1, b := 2 } : ToyMsg) toyWorld).1 = false ∧
    (readPythonProtobuf toyPy toyNative 3 ({ a := 1, b := 2 } : ToyMsg) toyWorld).2.1 =
      { a := 1, b := 2 } ∧
    (∀ b, Event.nativeParse b ∉ eventsSince toyWorld
      (readPythonProtobuf toyPy toyNative 3 ({ a := 1, b := 2 } : ToyMsg) toyWorld).2.2) ∧
    eventsSince toyWorld
      (readPythonProtobuf toyPy toyNative 3 ({ a := 1, b := 2 } : ToyMsg) toyWorld).2.2 =
      [Event.callMethod 3 "SerializeToString" none none,
       Event.cerr ("Failed to call Python object's SerializeToString " ++
                   "(perhaps it is not a protobuf?)"),
       Event.errPrint (some { type := "AttributeError", message := "SerializeToString" })] :=
  readPythonProtobuf_call_failed toyPy toyNative 3 { a := 1, b := 2 } toyWorld
    { type := "AttributeError", message := "SerializeToString" } toyHeap (by decide) rfl

/-- C4, as stated, fails: the example object at address 4 serializes to the single byte
5, which the example parser rejects after clearing the destination and storing the
first field; `readPythonProtobuf` returns false and the destination, `(1, 2)` on
entry, is `(5, 0)` afterwards. -/
theorem readPythonProtobuf_parse_rejected_changes_destination :
    (4 ≠ toyPy.Py_None ∧
     toyPy.callMethod toyWorld.heap 4 "SerializeToString" none =
       (Except.ok 6, toyHeap ++ [ToyObj.str [5]]) ∧
     toyPy.stringAsStringAndSize (toyHeap ++ [ToyObj.str [5]]) 6 = Except.ok [5] ∧
     (toyNative.parseFromZeroCopyStream { a := 1, b := 2 } [5]).1 = false) ∧
    (readPythonProtobuf toyPy toyNative 4 ({ a := 1, b := 2 } : ToyMsg) toyWorld).1 = false ∧
    (readPythonProtobuf toyPy toyNative 4 ({ a := 1, b := 2 } : ToyMsg) toyWorld).2.1 =
      { a := 5, b := 0 } ∧
    (readPythonProtobuf toyPy toyNative 4 ({ a := 1, b := 2 } : ToyMsg) toyWorld).2.1 ≠
      { a := 1, b := 2 } := by
  refine ⟨⟨by decide, rfl, rfl, rfl⟩, by decide, by decide, by decide⟩

/-- C4, amended: for an object whose `SerializeToString` returns a byte string that the
destination type's parser rejects, `readPythonProtobuf` returns false and the
destination after the call is what the parser, run in place on it, left there; it
equals its value on entry whenever the rejecting parser left it unchanged. -/
theorem readPythonProtobuf_parse_rejected {H T : Type} (py : PyApi H) (nat : NativeApi T)
    (obj : PyRef) (t : T) (w : World H) (res : PyRef) (b : Bytes) (h : H)
    (hobj : obj ≠ py.Py_None)
    (hcall : py.callMethod w.heap obj "SerializeToString" none = (Except.ok res, h))
    (hstr : py.stringAsStringAndSize h res = Except.ok b)
    (hrej : (nat.parseFromZeroCopyStream t b).1 = false) :
    (readPythonProtobuf py nat obj t w).1 = false ∧
    (readPythonProtobuf py nat obj t w).2.1 = (nat.parseFromZeroCopyStream t b).2 ∧
    ((nat.parseFromZeroCopyStream t b).2 = t → (readPythonProtobuf py nat obj t w).2.1 = t) := by
  rw [read_parsed py nat obj t w res b h hobj hcall hstr]
  exact ⟨hrej, rfl, fun h => h⟩

/-- Evaluation on the example object that
serializes to the single byte 5. -/
theorem readPythonProtobuf_parse_rejected_witness :
    (readPythonProtobuf toyPy toyNative 4 ({ a := 1, b := 2 } : ToyMsg) toyWorld).1 = false ∧
    (readPythonProtobuf toyPy toyNative 4 ({ a := 1, b := 2 } : ToyMsg) toyWorld).2.1 =
      (toyNative.parseFromZeroCopyStream { a := 1, b := 2 } [5]).2 ∧
    ((toyNative.parseFromZeroCopyStream { a := 1, b := 2 } [5]).2 = { a := 1, b := 2 } →
      (readPythonProtobuf toyPy toyNative 4 ({ a := 1, b := 2 } : ToyMsg) toyWorld).2.1 =
        { a := 1, b := 2 }) :=
  readPythonProtobuf_parse_rejected toyPy toyNative 4 { a := 1, b := 2 } toyWorld 6 [5]
    (toyHeap ++ [ToyObj.str [5]]) (by decide) rfl rfl rfl

/-- C7: if no exception is pending when `readPythonProtobuf` is entered, none is pending
when it returns, whatever the object and the destination; an exception raised by the
`SerializeToString` call or by the string extraction is printed by `PyErr_Print()`
inside the call. -/
theorem readPythonProtobuf_leaves_no_exception {H T : Type} (py : PyApi H)
    (nat : NativeApi T) (obj : PyRef) (t : T) (w : World H) (hclean : w.pending = none) :
    (readPythonProtobuf py nat obj t w).2.2.pending = none ∧
    (∀ e h, obj ≠ py.Py_None →
      py.callMethod w.heap obj "SerializeToString" none = (Except.error e, h) →
      Event.errPrint (some e) ∈ eventsSince w (readPythonProtobuf py nat obj t w).2.2) ∧
    (∀ res e h, obj ≠ py.Py_None →
      py.callMethod w.heap obj "SerializeToString" none = (Except.ok res, h) →
      py.stringAsStringAndSize h res = Except.error e →
      Event.errPrint (some e) ∈ eventsSince w (readPythonProtobuf py nat obj t w).2.2) := by
  refine ⟨?_, ?_, ?_⟩
  · by_cases hobj : obj = py.Py_None
    · subst hobj
      rw [read_none]
      exact hclean
    · rcases hcall : py.callMethod w.heap obj "SerializeToString" none with ⟨r, h⟩
      cases r with
      | error e => rw [read_callFailed py nat obj t w e h hobj hcall]
      | ok res =>
          cases hstr : py.stringAsStringAndSize h res with
          | error e => rw [read_notString py nat obj t w res e h hobj hcall hstr]
          | ok b =>
              rw [read_parsed py nat obj t w res b h hobj hcall hstr]
              exact hclean
  · intro e h hobj hcall
    rw [read_callFailed py nat obj t w e h hobj hcall]
    simp [eventsSince]
  · intro res e h hobj hcall hstr
    rw [read_notString py nat obj t w res e h hobj hcall hstr]
    simp [eventsSince]

/-- Evaluation on the example object whose
`SerializeToString` returns a non-string. -/
theorem readPythonProtobuf_leaves_no_exception_witness :
    toyWorld.pending = none ∧
    (readPythonProtobuf toyPy toyNative 5 ({ a := 1, b := 2 } : ToyMsg) toyWorld).2.2.pending
      = none :=
  ⟨rfl, (readPythonProtobuf_leaves_no_exception toyPy toyNative 5 { a := 1, b := 2 }
    toyWorld rfl).1⟩

theorem refDelta_nil (r : PyRef) : refDelta r [] = 0 := rfl

theorem refDelta_cons (r : PyRef) (e : Event) (evs : List Event) :
    refDelta r (e :: evs) = refGain r e + refDelta r evs := by
  simp [refDelta]

/-- The events of a run that obtained `res` and released it: the reference count of no
object changes in total, and no prefix of the run has given back more than it got. -/
theorem refDelta_call_decref (r obj res : PyRef) (name : String) (arg : Option Bytes)
    (mid : List Event) (hmid : ∀ k, refDelta r (mid.take k) = 0) :
    refDelta r (Event.callMethod obj name arg (some res) :: (mid ++ [Event.decref res])) = 0 ∧
    ∀ k, 0 ≤ refDelta r
      ((Event.callMethod obj name arg (some res) :: (mid ++ [Event.decref res])).take k) := by
  have hall : refDelta r mid = 0 := by
    have := hmid mid.length
    simpa using this
  have happ : ∀ l : List Event, refDelta r (mid ++ l) = refDelta r l := by
    intro l
    simp only [refDelta, List.map_append, List.sum_append] at hall ⊢
    omega
  constructor
  · rw [refDelta_cons, happ, refDelta_cons, refDelta_nil]
    simp only [refGain]
    split <;> simp
  · intro k
    cases k with
    | zero => simp [refDelta]
    | succ k =>
        rw [List.take_succ_cons, refDelta_cons, List.take_append_eq_append_take]
        by_cases hk : k ≤ mid.length
        · have : List.take (k - mid.length) [Event.decref res] = [] := by
            simp [Nat.sub_eq_zero_of_le hk]
          rw [this, List.append_nil, hmid]
          simp only [refGain]
          split <;> simp
        · have h1 : mid.take k = mid := List.take_of_length_le (by omega)
          have h2 : List.take (k - mid.length) [Event.decref res] = [Event.decref res] := by
            apply List.take_of_length_le
            simp
            omega
          rw [h1, h2, happ, refDelta_cons, refDelta_nil]
          simp only [refGain]
          split <;> simp

theorem refDelta_take_of_gain_zero (r : PyRef) (l : List Event)
    (h : ∀ e ∈ l, refGain r e = 0) : ∀ k, refDelta r (l.take k) = 0 := by
  induction l with
  | nil => intro k; simp [refDelta]
  | cons e l ih =>
      intro k
      cases k with
      | zero => simp [refDelta]
      | succ k =>
          rw [List.take_succ_cons, refDelta_cons, h e (List.mem_cons_self e l),
            ih (fun e' he' => h e' (List.mem_cons_of_mem e he')) k]
          rfl

/-- C10: when the `SerializeToString` call returned an object, `readPythonProtobuf`
performs exactly one `Py_DECREF` on it, as its last action, and none on any other
object; when the object was `None` or the call returned NULL it performs no
`Py_DECREF` at all.  Over the whole call the number of references the function owns
is unchanged for every object, and at no point has it given back more references
than it obtained. -/
theorem readPythonProtobuf_releases_result_once {H T : Type} (py : PyApi H)
    (nat : NativeApi T) (obj : PyRef) (t : T) (w : World H) :
    (∀ res h, obj ≠ py.Py_None →
      py.callMethod w.heap obj "SerializeToString" none = (Except.ok res, h) →
      (eventsSince w (readPythonProtobuf py nat obj t w).2.2).count (Event.decref res) = 1 ∧
      (eventsSince w (readPythonProtobuf py nat obj t w).2.2).getLast? =
        some (Event.decref res) ∧
      ∀ r, r ≠ res →
        Event.decref r ∉ eventsSince w (readPythonProtobuf py nat obj t w).2.2) ∧
    (obj = py.Py_None →
      ∀ r, Event.decref r ∉ eventsSince w (readPythonProtobuf py nat obj t w).2.2) ∧
    (∀ e h, obj ≠ py.Py_None →
      py.callMethod w.heap obj "SerializeToString" none = (Except.error e, h) →
      ∀ r, Event.decref r ∉ eventsSince w (readPythonProtobuf py nat obj t w).2.2) ∧
    (∀ r, refDelta r (eventsSince w (readPythonProtobuf py nat obj t w).2.2) = 0) ∧
    (∀ r k, 0 ≤ refDelta r
      ((eventsSince w (readPythonProtobuf py nat obj t w).2.2).take k)) := by
  refine ⟨?_, ?_, ?_, ?_⟩
  · intro res h hobj hcall
    cases hstr : py.stringAsStringAndSize h res with
    | error e =>
        rw [read_notString py nat obj t w res e h hobj hcall hstr]
        simp [eventsSince]
    | ok b =>
        rw [read_parsed py nat obj t w res b h hobj hcall hstr]
        cases hp : (nat.parseFromZeroCopyStream t b).1 <;> simp [eventsSince]
  · intro hobj
    subst hobj
    rw [read_none]
    simp [eventsSince]
  · intro e h hobj hcall
    rw [read_callFailed py nat obj t w e h hobj hcall]
    simp [eventsSince]
  · have key : ∀ r,
        refDelta r (eventsSince w (readPythonProtobuf py nat obj t w).2.2) = 0 ∧
        ∀ k, 0 ≤ refDelta r
          ((eventsSince w (readPythonProtobuf py nat obj t w).2.2).take k) := by
      intro r
      by_cases hobj : obj = py.Py_None
      · subst hobj
        rw [read_none]
        have hz := refDelta_take_of_gain_zero r
          [Event.cerr "None object given where protobuf expected"] (by simp [refGain])
        simp only [eventsSince, List.drop_left]
        exact ⟨by simpa using hz 1, fun k => le_of_eq (hz k).symm⟩
      · rcases hcall : py.callMethod w.heap obj "SerializeToString" none with ⟨c, h⟩
        cases c with
        | error e =>
            rw [read_callFailed py nat obj t w e h hobj hcall]
            have hz := refDelta_take_of_gain_zero r
              [Event.callMethod obj "SerializeToString" none none,
               Event.cerr ("Failed to call Python object's SerializeToString " ++
                           "(perhaps it is not a protobuf?)"),
               Event.errPrint (some e)] (by simp [refGain])
            simp only [eventsSince, List.drop_left]
            exact ⟨by simpa using hz 3, fun k => le_of_eq (hz k).symm⟩
        | ok res =>
            cases hstr : py.stringAsStringAndSize h res with
            | error e =>
                rw [read_notString py nat obj t w res e h hobj hcall hstr]
                simp only [eventsSince, List.drop_left]
                exact refDelta_call_decref r obj res "SerializeToString" none
                  [Event.cerr "SerializeToString did not return a string",
                   Event.errPrint (some e)]
                  (refDelta_take_of_gain_zero r _ (by simp [refGain]))
            | ok b =>
                rw [read_parsed py nat obj t w res b h hobj hcall hstr]
                simp only [eventsSince, List.drop_left]
                have := refDelta_call_decref r obj res "SerializeToString" none
                  (Event.nativeParse b ::
                    (if (nat.parseFromZeroCopyStream t b).1 = false then
                      [Event.cerr "Could not deserialize protobuf as expected type"]
                    else []))
                  (refDelta_take_of_gain_zero r _ (by
                    intro e he
                    cases hp : (nat.parseFromZeroCopyStream t b).1 <;>
                      simp [hp] at he <;> rcases he with rfl | rfl <;> simp [refGain]))
                simpa using this
    exact ⟨fun r => (key r).1, fun r k => (key r).2 k⟩

/-! ## The five ways through `createPythonProtobuf` -/

theorem create_noDict {H T : Type} (py : PyApi H) (nat : NativeApi T) (t : T)
    (typeName : String) (w : World H) (hdict : py.moduleGetDict w.heap = none) :
    createPythonProtobuf py nat t typeName w =
      (none, PyErr_Format "PyModule_GetDict failed" w) := by
  simp [createPythonProtobuf, hdict]

theorem create_unresolved {H T : Type} (py : PyApi H) (nat : NativeApi T) (t : T)
    (typeName : String) (w : World H) (dict : PyRef)
    (hdict : py.moduleGetDict w.heap = some dict)
    (hmiss : py.dictGetItemString w.heap dict typeName = none) :
    createPythonProtobuf py nat t typeName w =
      (none, PyErr_Format ("Could not resolve mesos_pb2." ++ typeName) w) := by
  simp [createPythonProtobuf, hdict, hmiss]

theorem create_notType {H T : Type} (py : PyApi H) (nat : NativeApi T) (t : T)
    (typeName : String) (w : World H) (dict type : PyRef)
    (hdict : py.moduleGetDict w.heap = some dict)
    (hentry : py.dictGetItemString w.heap dict typeName = some type)
    (hcheck : py.typeCheck w.heap type = false) :
    createPythonProtobuf py nat t typeName w =
      (none, PyErr_Format ("mesos_pb2." ++ typeName ++ " is not a type") w) := by
  simp [createPythonProtobuf, hdict, hentry, hcheck]

theorem create_serializeFailed {H T : Type} (py : PyApi H) (nat : NativeApi T) (t : T)
    (typeName : String) (w : World H) (dict type : PyRef)
    (hdict : py.moduleGetDict w.heap = some dict)
    (hentry : py.dictGetItemString w.heap dict typeName = some type)
    (hcheck : py.typeCheck w.heap type = true)
    (hser : nat.serializeToString t = none) :
    createPythonProtobuf py nat t typeName w =
      (none, PyErr_Format ("C++ " ++ typeName ++ " SerializeToString failed")
        (w.emit Event.nativeSerialize)) := by
  simp [createPythonProtobuf, hdict, hentry, hcheck, hser]

theorem create_called {H T : Type} (py : PyApi H) (nat : NativeApi T) (t : T)
    (typeName : String) (w : World H) (dict type : PyRef) (str : Bytes)
    (hdict : py.moduleGetDict w.heap = some dict)
    (hentry : py.dictGetItemString w.heap dict typeName = some type)
    (hcheck : py.typeCheck w.heap type = true)
    (hser : nat.serializeToString t = some str) :
    createPythonProtobuf py nat t typeName w =
      PyObject_CallMethod py type "FromString" (some str) (w.emit Event.nativeSerialize) := by
  simp [createPythonProtobuf, hdict, hentry, hcheck, hser, buildValue_s_hash, take_cBuffer]

theorem containsName_append (before name after : String) :
    containsName (before ++ name ++ after) name :=
  ⟨before.data, after.data, by simp [String.data_append]⟩

/-! ## Properties of `createPythonProtobuf` -/

/-- C5: when the `mesos_pb2` namespace has no entry for the type name,
`createPythonProtobuf` returns NULL with the exception
"Could not resolve mesos_pb2.<name>" pending; setting that exception is all it does,
so neither the native serializer nor `FromString` is reached. -/
theorem createPythonProtobuf_unresolved {H T : Type} (py : PyApi H) (nat : NativeApi T)
    (t : T) (typeName : String) (w : World H) (dict : PyRef)
    (hdict : py.moduleGetDict w.heap = some dict)
    (hmiss : py.dictGetItemString w.heap dict typeName = none) :
    (createPythonProtobuf py nat t typeName w).1 = none ∧
    (createPythonProtobuf py nat t typeName w).2.pending =
      some { type := "Exception", message := "Could not resolve mesos_pb2." ++ typeName } ∧
    (createPythonProtobuf py nat t typeName w).2.heap = w.heap ∧
    eventsSince w (createPythonProtobuf py nat t typeName w).2 =
      [Event.errFormat
        { type := "Exception", message := "Could not resolve mesos_pb2." ++ typeName }] ∧
    Event.nativeSerialize ∉ eventsSince w (createPythonProtobuf py nat t typeName w).2 ∧
    (∀ o n a r, Event.callMethod o n a r ∉
      eventsSince w (createPythonProtobuf py nat t typeName w).2) := by
  rw [create_unresolved py nat t typeName w dict hdict hmiss]
  simp [PyErr_Format, eventsSince]

/-- Evaluation on the name `"Offer"`, which the
example namespace does not define. -/
theorem createPythonProtobuf_unresolved_witness :
    (toyPy.moduleGetDict toyWorld.heap = some 1 ∧
     toyPy.dictGetItemString toyWorld.heap 1 "Offer" = none) ∧
    (createPythonProtobuf toyPy toyNative ({ a := 0, b := 7 } : ToyMsg) "Offer" toyWorld).1
      = none ∧
    (createPythonProtobuf toyPy toyNative ({ a := 0, b := 7 } : ToyMsg) "Offer"
      toyWorld).2.pending =
      some { type := "Exception", message := "Could not resolve mesos_pb2.Offer" } :=
  ⟨⟨rfl, by decide⟩,
   (createPythonProtobuf_unresolved toyPy toyNative { a := 0, b := 7 } "Offer" toyWorld 1
      rfl (by decide)).1,
   (createPythonProtobuf_unresolved toyPy toyNative { a := 0, b := 7 } "Offer" toyWorld 1
      rfl (by decide)).2.1⟩

/-- C6, as stated, fails: when `PyModule_GetDict(mesos_pb2)` returns NULL the exception
raised for the type name `"TaskInfo"` has the message "PyModule_GetDict failed",
which does not contain `"TaskInfo"`. -/
theorem createPythonProtobuf_noDict_message_lacks_name :
    toyPyNoModule.moduleGetDict toyWorld.heap = none ∧
    (createPythonProtobuf toyPyNoModule toyNative ({ a := 0, b := 7 } : ToyMsg) "TaskInfo"
      toyWorld).1 = none ∧
    (createPythonProtobuf toyPyNoModule toyNative ({ a := 0, b := 7 } : ToyMsg) "TaskInfo"
      toyWorld).2.pending =
      some { type := "Exception", message := "PyModule_GetDict failed" } ∧
    ¬ containsName "PyModule_GetDict failed" "TaskInfo" := by
  refine ⟨rfl, by decide, by decide, ?_⟩
  rintro ⟨before, after, h⟩
  have hT : 'T' ∈ "PyModule_GetDict failed".data := by
    rw [h]
    simp
  exact absurd hT (by decide)

/-- C6, amended: when `createPythonProtobuf` fails because the name is not found, the
entry is not a type, or native serialization failed, it returns NULL and the message
of the exception it raises contains the given type name; when the namespace is
unavailable it returns NULL and the message is the fixed text
"PyModule_GetDict failed". -/
theorem createPythonProtobuf_failure_message {H T : Type} (py : PyApi H)
    (nat : NativeApi T) (t : T) (typeName : String) (w : World H) :
    (py.moduleGetDict w.heap = none →
      (createPythonProtobuf py nat t typeName w).1 = none ∧
      (createPythonProtobuf py nat t typeName w).2.pending =
        some { type := "Exception", message := "PyModule_GetDict failed" }) ∧
    (∀ dict, py.moduleGetDict w.heap = some dict →
      (py.dictGetItemString w.heap dict typeName = none ∨
       ∃ type, py.dictGetItemString w.heap dict typeName = some type ∧
         (py.typeCheck w.heap type = false ∨ nat.serializeToString t = none)) →
      (createPythonProtobuf py nat t typeName w).1 = none ∧
      ∃ e, (createPythonProtobuf py nat t typeName w).2.pending = some e ∧
        e.type = "Exception" ∧ containsName e.message typeName) := by
  constructor
  · intro hdict
    rw [create_noDict py nat t typeName w hdict]
    simp [PyErr_Format]
  · intro dict hdict hfail
    rcases hfail with hmiss | ⟨type, hentry, hbad⟩
    · rw [create_unresolved py nat t typeName w dict hdict hmiss]
      refine ⟨rfl, _, rfl, rfl, ?_⟩
      simpa using containsName_append "Could not resolve mesos_pb2." typeName ""
    · cases hcheck : py.typeCheck w.heap type with
      | false =>
          rw [create_notType py nat t typeName w dict type hdict hentry hcheck]
          exact ⟨rfl, _, rfl, rfl, containsName_append "mesos_pb2." typeName " is not a type"⟩
      | true =>
          have hser : nat.serializeToString t = none := by
            rcases hbad with hc | hs
            · rw [hcheck] at hc
              exact absurd hc (by decide)
            · exact hs
          rw [create_serializeFailed py nat t typeName w dict type hdict hentry hcheck hser]
          exact ⟨rfl, _, rfl, rfl,
            containsName_append "C++ " typeName " SerializeToString failed"⟩

/-- Evaluation on the name `"version"`, which
the example namespace maps to a string rather than a type. -/
theorem createPythonProtobuf_failure_message_witness :
    (createPythonProtobuf toyPy toyNative ({ a := 0, b := 7 } : ToyMsg) "version" toyWorld).1
      = none ∧
    ∃ e, (createPythonProtobuf toyPy toyNative ({ a := 0, b := 7 } : ToyMsg) "version"
        toyWorld).2.pending = some e ∧
      e.type = "Exception" ∧ containsName e.message "version" :=
  (createPythonProtobuf_failure_message toyPy toyNative { a := 0, b := 7 } "version"
    toyWorld).2 1 rfl (Or.inr ⟨3, by decide, Or.inl (by decide)⟩)

/-- C8: entered with no exception pending, `createPythonProtobuf` returns NULL exactly
when an exception is pending on return.  When one of its own checks fails the
last thing it does is set an exception; when `FromString` is reached and raises, NULL
is returned with exactly that exception pending and no exception set by the function
itself; when `FromString` returns an object for the serialized bytes, that object is
returned and no exception is pending. -/
theorem createPythonProtobuf_null_iff_exception {H T : Type} (py : PyApi H)
    (nat : NativeApi T) (t : T) (typeName : String) (w : World H)
    (hclean : w.pending = none) :
    ((createPythonProtobuf py nat t typeName w).1 = none ↔
      (createPythonProtobuf py nat t typeName w).2.pending ≠ none) ∧
    ((py.moduleGetDict w.heap = none ∨
      ∃ dict, py.moduleGetDict w.heap = some dict ∧
        (py.dictGetItemString w.heap dict typeName = none ∨
         ∃ type, py.dictGetItemString w.heap dict typeName = some type ∧
           (py.typeCheck w.heap type = false ∨ nat.serializeToString t = none))) →
      (createPythonProtobuf py nat t typeName w).1 = none ∧
      ∃ e, (createPythonProtobuf py nat t typeName w).2.pending = some e ∧
        (eventsSince w (createPythonProtobuf py nat t typeName w).2).getLast? =
          some (Event.errFormat e)) ∧
    (∀ dict type str, py.moduleGetDict w.heap = some dict →
      py.dictGetItemString w.heap dict typeName = some type →
      py.typeCheck w.heap type = true →
      nat.serializeToString t = some str →
      (∀ e h, py.callMethod w.heap type "FromString" (some str) = (Except.error e, h) →
        (createPythonProtobuf py nat t typeName w).1 = none ∧
        (createPythonProtobuf py nat t typeName w).2.pending = some e ∧
        ∀ e', Event.errFormat e' ∉
          eventsSince w (createPythonProtobuf py nat t typeName w).2) ∧
      (∀ o h, py.callMethod w.heap type "FromString" (some str) = (Except.ok o, h) →
        (createPythonProtobuf py nat t typeName w).1 = some o ∧
        (createPythonProtobuf py nat t typeName w).2.pending = none)) := by
  have hcalled : ∀ dict type str, py.moduleGetDict w.heap = some dict →
      py.dictGetItemString w.heap dict typeName = some type →
      py.typeCheck w.heap type = true →
      nat.serializeToString t = some str →
      (∀ e h, py.callMethod w.heap type "FromString" (some str) = (Except.error e, h) →
        (createPythonProtobuf py nat t typeName w).1 = none ∧
        (createPythonProtobuf py nat t typeName w).2.pending = some e ∧
        ∀ e', Event.errFormat e' ∉
          eventsSince w (createPythonProtobuf py nat t typeName w).2) ∧
      (∀ o h, py.callMethod w.heap type "FromString" (some str) = (Except.ok o, h) →
        (createPythonProtobuf py nat t typeName w).1 = some o ∧
        (createPythonProtobuf py nat t typeName w).2.pending = none) := by
    intro dict type str hdict hentry hcheck hser
    rw [create_called py nat t typeName w dict type str hdict hentry hcheck hser]
    constructor
    · intro e h hcall
      simp [PyObject_CallMethod, World.emit, hcall, eventsSince]
    · intro o h hcall
      simp [PyObject_CallMethod, World.emit, hcall, hclean]
  have hown : (py.moduleGetDict w.heap = none ∨
      ∃ dict, py.moduleGetDict w.heap = some dict ∧
        (py.dictGetItemString w.heap dict typeName = none ∨
         ∃ type, py.dictGetItemString w.heap dict typeName = some type ∧
           (py.typeCheck w.heap type = false ∨ nat.serializeToString t = none))) →
      (createPythonProtobuf py nat t typeName w).1 = none ∧
      ∃ e, (createPythonProtobuf py nat t typeName w).2.pending = some e ∧
        (eventsSince w (createPythonProtobuf py nat t typeName w).2).getLast? =
          some (Event.errFormat e) := by
    rintro (hdict | ⟨dict, hdict, hmiss | ⟨type, hentry, hbad⟩⟩)
    · rw [create_noDict py nat t typeName w hdict]
      simp [PyErr_Format, eventsSince]
    · rw [create_unresolved py nat t typeName w dict hdict hmiss]
      simp [PyErr_Format, eventsSince]
    · cases hcheck : py.typeCheck w.heap type with
      | false =>
          rw [create_notType py nat t typeName w dict type hdict hentry hcheck]
          simp [PyErr_Format, eventsSince]
      | true =>
          have hser : nat.serializeToString t = none := by
            rcases hbad with hc | hs
            · rw [hcheck] at hc
              exact absurd hc (by decide)
            · exact hs
          rw [create_serializeFailed py nat t typeName w dict type hdict hentry hcheck hser]
          simp [PyErr_Format, World.emit, eventsSince]
  refine ⟨?_, hown, hcalled⟩
  cases hdict : py.moduleGetDict w.heap with
  | none =>
      obtain ⟨h1, e, h2, -⟩ := hown (Or.inl hdict)
      simp [h1, h2]
  | some dict =>
      cases hentry : py.dictGetItemString w.heap dict typeName with
      | none =>
          obtain ⟨h1, e, h2, -⟩ := hown (Or.inr ⟨dict, hdict, Or.inl hentry⟩)
          simp [h1, h2]
      | some type =>
          cases hcheck : py.typeCheck w.heap type with
          | false =>
              obtain ⟨h1, e, h2, -⟩ :=
                hown (Or.inr ⟨dict, hdict, Or.inr ⟨type, hentry, Or.inl hcheck⟩⟩)
              simp [h1, h2]
          | true =>
              cases hser : nat.serializeToString t with
              | none =>
                  obtain ⟨h1, e, h2, -⟩ :=
                    hown (Or.inr ⟨dict, hdict, Or.inr ⟨type, hentry, Or.inr hser⟩⟩)
                  simp [h1, h2]
              | some str =>
                  obtain ⟨herr, hok⟩ := hcalled dict type str hdict hentry hcheck hser
                  rcases hcall : py.callMethod w.heap type "FromString" (some str) with ⟨c, h⟩
                  cases c with
                  | error e =>
                      obtain ⟨h1, h2, -⟩ := herr e h hcall
                      simp [h1, h2]
                  | ok o =>
                      obtain ⟨h1, h2⟩ := hok o h hcall
                      simp [h1, h2]

/-- Evaluation on the example class and a
message whose wire form starts with a zero byte. -/
theorem createPythonProtobuf_null_iff_exception_witness :
    toyWorld.pending = none ∧
    (createPythonProtobuf toyPy toyNative ({ a := 0, b := 7 } : ToyMsg) "TaskInfo"
      toyWorld).1 = some 6 ∧
    (createPythonProtobuf toyPy toyNative ({ a := 0, b := 7 } : ToyMsg) "TaskInfo"
      toyWorld).2.pending = none :=
  ⟨rfl, ((createPythonProtobuf_null_iff_exception toyPy toyNative { a := 0, b := 7 }
    "TaskInfo" toyWorld rfl).2.2 1 2 [0, 7] rfl (by decide) (by decide) rfl).2 6
      (toyHeap ++ [ToyObj.msg { a := 0, b := 7 }]) rfl⟩

/-- C1: round trip.  Let the namespace map the type name to a class whose `FromString`,
applied to the native serialization of `v`, yields an object representing `v` (the
Python parser inverts the native serializer), and let every object representing `v`
be a non-`None` object whose `SerializeToString` returns a string that the native
parser, run on the empty destination, accepts and decodes to `v` (the native parser
inverts the Python serializer).  Then whenever `createPythonProtobuf(v, name)` returns
a non-NULL object, `readPythonProtobuf` on that object and the empty destination
returns true and leaves `v` in the destination.  The bytes are of arbitrary length and
content: both directions hand over the whole sequence with its length. -/
theorem roundtrip_native_python_native {H T : Type} (py : PyApi H) (nat : NativeApi T)
    (Represents : H → PyRef → T → Prop) (v empty : T) (typeName : String) (w : World H)
    (dict cls : PyRef)
    (hdict : py.moduleGetDict w.heap = some dict)
    (hcls : py.dictGetItemString w.heap dict typeName = some cls)
    (hPyParser : ∀ b o h, nat.serializeToString v = some b →
      py.callMethod w.heap cls "FromString" (some b) = (Except.ok o, h) →
      Represents h o v)
    (hNatParser : ∀ h o, Represents h o v →
      o ≠ py.Py_None ∧
      ∃ res h' b, py.callMethod h o "SerializeToString" none = (Except.ok res, h') ∧
        py.stringAsStringAndSize h' res = Except.ok b ∧
        nat.parseFromZeroCopyStream empty b = (true, v))
    (o : PyRef) (w1 : World H)
    (hcreate : createPythonProtobuf py nat v typeName w = (some o, w1)) :
    (readPythonProtobuf py nat o empty w1).1 = true ∧
    (readPythonProtobuf py nat o empty w1).2.1 = v := by
  cases hcheck : py.typeCheck w.heap cls with
  | false =>
      rw [create_notType py nat v typeName w dict cls hdict hcls hcheck] at hcreate
      simp at hcreate
  | true =>
      cases hser : nat.serializeToString v with
      | none =>
          rw [create_serializeFailed py nat v typeName w dict cls hdict hcls hcheck hser]
            at hcreate
          simp at hcreate
      | some str =>
          rw [create_called py nat v typeName w dict cls str hdict hcls hcheck hser] at hcreate
          rcases hcall : py.callMethod w.heap cls "FromString" (some str) with ⟨c, h⟩
          cases c with
          | error e => simp [PyObject_CallMethod, World.emit, hcall] at hcreate
          | ok o' =>
              simp only [PyObject_CallMethod, World.emit, hcall, Prod.mk.injEq,
                Option.some.injEq] at hcreate
              obtain ⟨ho, hw1⟩ := hcreate
              subst ho
              have hheap : w1.heap = h := by rw [← hw1]
              obtain ⟨hne, res, h', b, hcall2, hstr, hparse⟩ :=
                hNatParser h o' (hPyParser str o' h hser hcall)
              rw [← hheap] at hcall2
              rw [read_parsed py nat o' empty w1 res b h' hne hcall2 hstr, hparse]
              exact ⟨rfl, rfl⟩

theorem toyPy_serialize_msg (h : List ToyObj) (o : PyRef) (m : ToyMsg)
    (hget : h[o]? = some (ToyObj.msg m)) :
    toyPy.callMethod h o "SerializeToString" none =
      (Except.ok h.length, h ++ [ToyObj.str [m.a, m.b]]) := by
  unfold toyPy
  dsimp only
  rw [hget]
  rfl

theorem toyPy_string_at_end (h : List ToyObj) (b : Bytes) :
    toyPy.stringAsStringAndSize (h ++ [ToyObj.str b]) h.length = Except.ok b := by
  unfold toyPy
  dsimp only
  rw [List.getElem?_concat_length]


/-- Evaluation on the example class and a message
whose wire form starts with a zero byte. -/
theorem roundtrip_native_python_native_witness :
    createPythonProtobuf toyPy toyNative ({ a := 0, b := 7 } : ToyMsg) "TaskInfo" toyWorld =
      (some 6, (createPythonProtobuf toyPy toyNative ({ a := 0, b := 7 } : ToyMsg)
        "TaskInfo" toyWorld).2) ∧
    (readPythonProtobuf toyPy toyNative 6 ({ a := 0, b := 0 } : ToyMsg)
      (createPythonProtobuf toyPy toyNative ({ a := 0, b := 7 } : ToyMsg) "TaskInfo"
        toyWorld).2).1 = true ∧
    (readPythonProtobuf toyPy toyNative 6 ({ a := 0, b := 0 } : ToyMsg)
      (createPythonProtobuf toyPy toyNative ({ a := 0, b := 7 } : ToyMsg) "TaskInfo"
        toyWorld).2).2.1 = { a := 0, b := 7 } :=
  ⟨rfl,
   roundtrip_native_python_native toyPy toyNative toyRepresents { a := 0, b := 7 }
    { a := 0, b := 0 } "TaskInfo" toyWorld 1 2 rfl (by decide)
    (by
      intro b o h hser hcall
      have hb : b = [0, 7] := by
        have : some [(0 : Byte), 7] = some b := hser
        exact (Option.some.inj this).symm
      subst hb
      have hcall' : (Except.ok 6, toyHeap ++ [ToyObj.msg { a := 0, b := 7 }]) =
          ((Except.ok o : Except PyErr PyRef), h) := hcall
      simp only [Prod.mk.injEq, Except.ok.injEq] at hcall'
      obtain ⟨ho, hh⟩ := hcall'
      subst ho hh
      exact ⟨by decide, by decide⟩)
    (by
      rintro h o ⟨hne, hget⟩
      refine ⟨hne, h.length, h ++ [ToyObj.str [0, 7]], [0, 7], ?_, ?_, rfl⟩
      · exact toyPy_serialize_msg h o { a := 0, b := 7 } hget
      · exact toyPy_string_at_end h [0, 7])
    6 _ rfl⟩

/-! ## Properties of `InterpreterLock` -/

theorem wellBracketed_release {G Tok : Type} [DecidableEq G] [DecidableEq Tok]
    (s : Tok) (g : G) (es : List (GilEvent G Tok)) (stack : List (G × Tok)) :
    wellBracketed (GilEvent.release s g :: es) ((g, s) :: stack) = wellBracketed es stack := by
  simp [wellBracketed]

/-- Running any blocks from a well-formed lock state gives that state back, and the GIL
calls made are neutral for both checks: they can be cut out of any longer list of
calls without changing its verdict. -/
theorem runScopes_neutral {G Tok : Type} [DecidableEq G] [DecidableEq Tok]
    (api : GilApi G Tok) (Inv : G → Prop) (held : G → Bool)
    (hens : ∀ g, Inv g → Inv (api.PyGILState_Ensure g).2 ∧
      held (api.PyGILState_Ensure g).2 = true)
    (hrel : ∀ g, Inv g →
      api.PyGILState_Release (api.PyGILState_Ensure g).1 (api.PyGILState_Ensure g).2 = g)
    (p : Scopes) :
    ∀ g, Inv g →
      (runScopes api p g).1 = g ∧
      (∀ rest stack, wellBracketed ((runScopes api p g).2.1 ++ rest) stack =
        wellBracketed rest stack) ∧
      (∀ rest depth, (0 < depth → held g = true) →
        outerHoldKept held ((runScopes api p g).2.1 ++ rest) depth =
          outerHoldKept held rest depth) := by
  induction p with
  | done => intro g _; simp [runScopes]
  | leave => intro g _; simp [runScopes]
  | scope body rest ihb ihr =>
      intro g hg
      obtain ⟨hinv1, hheld1⟩ := hens g hg
      obtain ⟨hb1, hb2, hb3⟩ := ihb (api.PyGILState_Ensure g).2 hinv1
      obtain ⟨hr1, hr2, hr3⟩ := ihr g hg
      have hback : InterpreterLock.dtor api (InterpreterLock.ctor api g).1
          (runScopes api body (InterpreterLock.ctor api g).2).1 = g := by
        simp only [InterpreterLock.dtor, InterpreterLock.ctor]
        rw [hb1]
        exact hrel g hg
      have hwb : ∀ tail stack,
          wellBracketed (GilEvent.acquire g (api.PyGILState_Ensure g).1 ::
            ((runScopes api body (api.PyGILState_Ensure g).2).2.1 ++
              [GilEvent.release (api.PyGILState_Ensure g).1 g]) ++ tail) stack =
          wellBracketed tail stack := by
        intro tail stack
        rw [List.cons_append, List.append_assoc, List.singleton_append, wellBracketed, hb2,
          wellBracketed_release]
      have hok : ∀ tail depth, (0 < depth → held g = true) →
          outerHoldKept held (GilEvent.acquire g (api.PyGILState_Ensure g).1 ::
            ((runScopes api body (api.PyGILState_Ensure g).2).2.1 ++
              [GilEvent.release (api.PyGILState_Ensure g).1 g]) ++ tail) depth =
          outerHoldKept held tail depth := by
        intro tail depth hd
        rw [List.cons_append, List.append_assoc, List.singleton_append, outerHoldKept,
          hb3 _ _ (fun _ => hheld1), outerHoldKept, Nat.add_sub_cancel]
        cases depth with
        | zero => simp
        | succ d => simp [hd (Nat.succ_pos d)]
      simp only [runScopes, hback]
      simp only [InterpreterLock.ctor]
      cases hleft : (runScopes api body (api.PyGILState_Ensure g).2).2.2 with
      | true =>
          simp only [if_true]
          exact ⟨trivial, hwb, hok⟩
      | false =>
          simp only [Bool.false_eq_true, if_false]
          refine ⟨hr1, ?_, ?_⟩
          · intro tail stack
            rw [List.append_assoc, hwb, hr2]
          · intro tail depth hd
            rw [List.append_assoc, hok _ _ hd, hr3 _ _ hd]

theorem refGil_ensure (g : GilState) (hg : refGilInv g) :
    refGilInv (refGil.PyGILState_Ensure g).2 ∧
    (refGil.PyGILState_Ensure g).2.current = true := by
  rcases g with ⟨_ | c, cur⟩ <;> simp [refGil, refGilInv]

theorem refGil_release (g : GilState) (hg : refGilInv g) :
    refGil.PyGILState_Release (refGil.PyGILState_Ensure g).1
      (refGil.PyGILState_Ensure g).2 = g := by
  rcases g with ⟨_ | c, cur⟩
  · simp only [refGilInv] at hg
    subst hg
    simp [refGil]
  · have hc : 0 < c := hg
    have hc' : c ≠ 0 := Nat.pos_iff_ne_zero.mp hc
    cases cur <;> simp [refGil, hc']

/-- C9: let the GIL API restore the lock state when a release follows its own ensure,
and leave the lock held after an ensure (on well-formed lock states).  Then for every
properly nested sequence of `InterpreterLock` blocks run on one thread: the destructor
passes to `PyGILState_Release` the token its own constructor got from
`PyGILState_Ensure`; the lock state after the blocks, left normally or early, is the
state before them; in the list of GIL calls every release closes the most recent open
acquire with that acquire's token and leaves the lock state that acquire found, and no
acquire stays open; every release made inside an outer block leaves the lock held; and
a block opened while the lock is already held ends in the state it started from, the
outer hold included. -/
theorem InterpreterLock_nested_scopes {G Tok : Type} [DecidableEq G] [DecidableEq Tok]
    (api : GilApi G Tok) (Inv : G → Prop) (held : G → Bool)
    (hens : ∀ g, Inv g → Inv (api.PyGILState_Ensure g).2 ∧
      held (api.PyGILState_Ensure g).2 = true)
    (hrel : ∀ g, Inv g →
      api.PyGILState_Release (api.PyGILState_Ensure g).1 (api.PyGILState_Ensure g).2 = g)
    (p : Scopes) (g : G) (hg : Inv g) :
    (∀ g', InterpreterLock.dtor api (InterpreterLock.ctor api g).1 g' =
      api.PyGILState_Release (api.PyGILState_Ensure g).1 g') ∧
    (runScopes api p g).1 = g ∧
    wellBracketed (runScopes api p g).2.1 [] = true ∧
    outerHoldKept held (runScopes api p g).2.1 0 = true ∧
    (∀ body,
      held (InterpreterLock.ctor api g).2 = true ∧
      (runScopes api (Scopes.scope body Scopes.done) (InterpreterLock.ctor api g).2).1 =
        (InterpreterLock.ctor api g).2) := by
  obtain ⟨h1, h2, h3⟩ := runScopes_neutral api Inv held hens hrel p g hg
  refine ⟨fun _ => rfl, h1, ?_, ?_, ?_⟩
  · have := h2 [] []
    simpa [wellBracketed] using this
  · have := h3 [] 0 (fun h => absurd h (Nat.lt_irrefl 0))
    simpa [outerHoldKept] using this
  · intro body
    obtain ⟨hinv1, hheld1⟩ := hens g hg
    exact ⟨hheld1,
      (runScopes_neutral api Inv held hens hrel (Scopes.scope body Scopes.done)
        (api.PyGILState_Ensure g).2 hinv1).1⟩

/-- Evaluation on the reference model of the GIL API:
a thread that has a thread state but does not hold the GIL runs a block containing a
block and a block that is left early, followed by another block. -/
theorem InterpreterLock_nested_scopes_witness :
    refGilInv { counter := some 1, current := false } ∧
    (runScopes refGil
      (Scopes.scope (Scopes.scope Scopes.done (Scopes.scope Scopes.leave Scopes.done))
        (Scopes.scope Scopes.done Scopes.done))
      { counter := some 1, current := false }).1 = { counter := some 1, current := false } ∧
    wellBracketed (runScopes refGil
      (Scopes.scope (Scopes.scope Scopes.done (Scopes.scope Scopes.leave Scopes.done))
        (Scopes.scope Scopes.done Scopes.done))
      { counter := some 1, current := false }).2.1 [] = true ∧
    outerHoldKept (fun g => g.current) (runScopes refGil
      (Scopes.scope (Scopes.scope Scopes.done (Scopes.scope Scopes.leave Scopes.done))
        (Scopes.scope Scopes.done Scopes.done))
      { counter := some 1, current := false }).2.1 0 = true :=
  ⟨by decide,
   (InterpreterLock_nested_scopes refGil refGilInv (fun g => g.current) refGil_ensure
      refGil_release
      (Scopes.scope (Scopes.scope Scopes.done (Scopes.scope Scopes.leave Scopes.done))
        (Scopes.scope Scopes.done Scopes.done))
      { counter := some 1, current := false } (by decide)).2.1,
   (InterpreterLock_nested_scopes refGil refGilInv (fun g => g.current) refGil_ensure
      refGil_release
      (Scopes.scope (Scopes.scope Scopes.done (Scopes.scope Scopes.leave Scopes.done))
        (Scopes.scope Scopes.done Scopes.done))
      { counter := some 1, current := false } (by decide)).2.2.1,
   (InterpreterLock_nested_scopes refGil refGilInv (fun g => g.current) refGil_ensure
      refGil_release
      (Scopes.scope (Scopes.scope Scopes.done (Scopes.scope Scopes.leave Scopes.done))
        (Scopes.scope Scopes.done Scopes.done))
      { counter := some 1, current := false } (by decide)).2.2.2.1⟩

end Mesos.Python
